import Mathlib

/-!
Shallow embedding of the transaction core of the sales-bot repository:
the loyalty points ledger, the payment lifecycle operations of the
PaymentService, the product availability operations of the ProductService,
and the rule-based fraud detection system.

Conventions: times are integers (milliseconds since the epoch, as produced
by the JS Date arithmetic in the source), money amounts are rationals,
point amounts are integers.  Database tables keyed by an id are embedded as
functions from the key to an optional record; a save is a pointwise update.
Randomly generated artifacts (database ids, delivery credentials, the PIX
code and QR url strings) are supplied as explicit parameters, since the
source obtains them from collaborators or from crypto randomness.
-/

namespace Mercadao

/-- Status of one loyalty ledger transaction entry (models/loyalty.js). -/
inductive TxStatus where
  | ACTIVE
  | USED
  | EXPIRED
deriving DecidableEq, Repr

/-- One entry of the per-user loyalty transaction log.  Field names follow
the JS objects built in loyalty.js (addPoints, usePoints,
_processExpiredPoints). -/
structure LoyaltyTx where
  id : String
  amount : Int
  reason : String
  createdAt : Int
  expiresAt : Int
  status : TxStatus
  relatedProductId : Option String := none
  relatedPaymentId : Option String := none
  actionBy : Option String := none
deriving DecidableEq, Repr

/-- One loyalty account, as stored by the Loyalty model. -/
structure LoyaltyAccount where
  userId : String
  userName : String
  totalPoints : Int
  lifetimePoints : Int
  level : Nat
  transactions : List LoyaltyTx
  lastUpdated : Int := 0
deriving DecidableEq, Repr

/-- Metadata argument of addPoints and usePoints. -/
structure TxMeta where
  productId : Option String := none
  paymentId : Option String := none
  adminId : Option String := none
deriving DecidableEq, Repr

/-- Minimal user profile record, used by addPoints when it creates a fresh
loyalty account (user/profile.js getUserProfile). -/
structure UserRecord where
  userId : String
  username : String
deriving DecidableEq, Repr

/-- State touched by the loyalty module: the Loyalty table and the User
table, each keyed by userId. -/
structure LoyaltyStore where
  accounts : String → Option LoyaltyAccount
  users : String → Option UserRecord

/-- Conversion rate of points into money, config.marketing.loyaltyPoints. -/
def conversionRate : ℚ := 1 / 100

/-- Expiration window in days for credited points,
config.marketing.loyaltyPoints. -/
def expirationDays : Int := 90

/-- Milliseconds in one day. -/
def msPerDay : Int := 24 * 60 * 60 * 1000

/-- Milliseconds in 365 days, the placeholder expiry the source puts on
debit and expiration entries. -/
def msPerYear : Int := 365 * msPerDay

/-- Upsert of a loyalty account: Loyalty.create and loyalty.save store the
record under the userId key the row was created or found with. -/
def saveAccount (s : LoyaltyStore) (key : String) (l : LoyaltyAccount) :
    LoyaltyStore :=
  { s with accounts := fun u => if u = key then some l else s.accounts u }

/-- Loyalty level from lifetime points (loyalty.js _calculateLoyaltyLevel). -/
def _calculateLoyaltyLevel (lifetimePoints : Int) : Nat :=
  if lifetimePoints ≥ 10000 then 5
  else if lifetimePoints ≥ 5000 then 4
  else if lifetimePoints ≥ 2000 then 3
  else if lifetimePoints ≥ 500 then 2
  else 1

/-- Predicate selecting the transactions flipped by the expiration sweep:
status ACTIVE and expiry not in the future. -/
def expiredActive (now : Int) (tx : LoyaltyTx) : Bool :=
  tx.status == TxStatus.ACTIVE && tx.expiresAt ≤ now

/-- Sum of the amounts the sweep of loyalty.js _processExpiredPoints would
expire at the given instant. -/
def pointsExpired (now : Int) (l : LoyaltyAccount) : Int :=
  (l.transactions.filter (expiredActive now)).foldl (fun a tx => a + tx.amount) 0

/-- Flip applied to each transaction by the sweep loop. -/
def flipExpired (now : Int) (tx : LoyaltyTx) : LoyaltyTx :=
  if expiredActive now tx then { tx with status := TxStatus.EXPIRED } else tx

/-- Synthetic debit entry appended by the sweep for the expired sum. -/
def expirationTx (now : Int) (amount : Int) : LoyaltyTx :=
  { id := toString now
    amount := -amount
    reason := "EXPIRATION"
    createdAt := now
    expiresAt := now + msPerYear
    status := TxStatus.USED }

/-- Lazy expiration sweep over one account, loyalty.js
_processExpiredPoints.  The account is only modified (and saved by the
caller) when a positive amount of points expired. -/
def _processExpiredPoints (now : Int) (l : LoyaltyAccount) : LoyaltyAccount :=
  if 0 < pointsExpired now l then
    { l with
      transactions :=
        l.transactions.map (flipExpired now) ++ [expirationTx now (pointsExpired now l)]
      totalPoints := l.totalPoints - pointsExpired now l
      lastUpdated := now }
  else l

/-- Result of loyalty.js addPoints, mirroring the returned JS object. -/
inductive AddPointsResult where
  | invalidAmount
  | userNotFound
  | ok (updatedPoints : Int) (level : Nat)
deriving DecidableEq, Repr

/-- Credit operation of the loyalty ledger, loyalty.js addPoints.  Note
that the source does not run the expiration sweep here. -/
def addPoints (s : LoyaltyStore) (userId : String) (points : Int)
    (reason : String) (meta : TxMeta) (now : Int) :
    AddPointsResult × LoyaltyStore :=
  if points ≤ 0 then (AddPointsResult.invalidAmount, s)
  else
    let base? : Option LoyaltyAccount :=
      match s.accounts userId with
      | some l => some l
      | none =>
        match s.users userId with
        | none => none
        | some u =>
          some { userId := userId, userName := u.username, totalPoints := 0,
                 lifetimePoints := 0, level := 1, transactions := [] }
    match base? with
    | none => (AddPointsResult.userNotFound, s)
    | some l =>
      let tx : LoyaltyTx :=
        { id := toString now
          amount := points
          reason := reason
          createdAt := now
          expiresAt := now + expirationDays * msPerDay
          status := TxStatus.ACTIVE
          relatedProductId := meta.productId
          relatedPaymentId := meta.paymentId }
      let l' : LoyaltyAccount :=
        { l with
          transactions := l.transactions ++ [tx]
          totalPoints := l.totalPoints + points
          lifetimePoints := l.lifetimePoints + points
          level := _calculateLoyaltyLevel (l.lifetimePoints + points)
          lastUpdated := now }
      (AddPointsResult.ok l'.totalPoints l'.level, saveAccount s userId l')

/-- Result of loyalty.js usePoints, mirroring the returned JS object. -/
inductive UsePointsResult where
  | invalidAmount
  | noAccount
  | insufficientBalance (currentPoints requestedPoints : Int)
  | ok (remainingPoints : Int) (level : Nat)
deriving DecidableEq, Repr

/-- Debit operation of the loyalty ledger, loyalty.js usePoints.  The
balance check reads the stored totalPoints directly; the source does not
run the expiration sweep here either. -/
def usePoints (s : LoyaltyStore) (userId : String) (points : Int)
    (reason : String) (meta : TxMeta) (now : Int) :
    UsePointsResult × LoyaltyStore :=
  if points ≤ 0 then (UsePointsResult.invalidAmount, s)
  else
    match s.accounts userId with
    | none => (UsePointsResult.noAccount, s)
    | some l =>
      if l.totalPoints < points then
        (UsePointsResult.insufficientBalance l.totalPoints points, s)
      else
        let tx : LoyaltyTx :=
          { id := toString now
            amount := -points
            reason := reason
            createdAt := now
            expiresAt := now + msPerYear
            status := TxStatus.USED
            relatedProductId := meta.productId
            relatedPaymentId := meta.paymentId
            actionBy := meta.adminId }
        let l' : LoyaltyAccount :=
          { l with
            transactions := l.transactions ++ [tx]
            totalPoints := l.totalPoints - points
            lastUpdated := now }
        (UsePointsResult.ok l'.totalPoints l'.level, saveAccount s userId l')

/-- Transaction entry as rendered by getUserPoints. -/
structure TxView where
  id : String
  amount : Int
  reason : String
  date : Int
  expiresAt : Int
  status : TxStatus
deriving DecidableEq, Repr

/-- View returned by loyalty.js getUserPoints. -/
structure PointsView where
  amount : Int
  lifetimePoints : Int
  level : Nat
  transactions : List TxView
  valueInMoney : ℚ
deriving DecidableEq, Repr

/-- Balance read of the loyalty ledger, loyalty.js getUserPoints.  For a
missing account it returns an empty view without creating anything; for a
present account it first runs the expiration sweep (saving only when the
sweep fired), then renders the view with transactions sorted most recent
first. -/
def getUserPoints (s : LoyaltyStore) (userId : String) (now : Int) :
    PointsView × LoyaltyStore :=
  match s.accounts userId with
  | none =>
    ({ amount := 0, lifetimePoints := 0, level := 1, transactions := [],
       valueInMoney := 0 }, s)
  | some l =>
    let l' := _processExpiredPoints now l
    let s' := if 0 < pointsExpired now l then saveAccount s userId l' else s
    let txs :=
      (l'.transactions.mergeSort (fun a b => b.createdAt ≤ a.createdAt)).map
        (fun tx => TxView.mk tx.id tx.amount tx.reason tx.createdAt tx.expiresAt tx.status)
    ({ amount := l'.totalPoints
       lifetimePoints := l'.lifetimePoints
       level := l'.level
       transactions := txs
       valueInMoney := l'.totalPoints * conversionRate }, s')

/-! Payment and product services (PaymentService and ProductService). -/

/-- Payment status values.  The model enums (models/index.js and the
mongoose schema) list PENDING, PROCESSING, COMPLETED, FAILED, REFUNDED,
CANCELLED and EXPIRED; the REJECTED value is added because
PaymentService.approvePayment and rejectPayment write it. -/
inductive PaymentStatus where
  | PENDING
  | PROCESSING
  | COMPLETED
  | FAILED
  | REFUNDED
  | CANCELLED
  | EXPIRED
  | REJECTED
deriving DecidableEq, Repr

/-- Delivery credentials generated on approval
(PaymentService._generateAccountCredentials, crypto randomness supplied by
the caller of the embedding). -/
structure Credentials where
  login : String
  password : String
deriving DecidableEq, Repr

/-- One payment record, with the fields written by createPayment,
approvePayment and rejectPayment. -/
structure Payment where
  id : String
  userId : String
  userName : String
  productId : String
  productName : String
  amount : ℚ
  method : String
  status : PaymentStatus
  createdAt : Int
  expiresAt : Int
  pixCode : String := ""
  qrCodeUrl : String := ""
  completedAt : Option Int := none
  approvedBy : Option String := none
  deliveryData : Option Credentials := none
  rejectedAt : Option Int := none
  rejectionReason : Option String := none
  rejectedBy : Option String := none
deriving DecidableEq, Repr

/-- One product record, with the fields read and written by ProductService
and by approvePayment. -/
structure Product where
  id : String
  nome : String
  tipo : String
  preco : ℚ
  descricao : String := ""
  disponivel : Bool
  vendido : Bool
  dataVenda : Option Int := none
  compradoPor : Option String := none
  visualizacoes : Int := 0
deriving DecidableEq, Repr

/-- One activity log entry appended by UserService.recordActivity; the JS
data object is modeled by the optional fields. -/
structure Activity where
  userId : String
  action : String
  createdAt : Int
  productId : Option String := none
  productName : Option String := none
  paymentId : Option String := none
  amount : Option ℚ := none
  reason : Option String := none
deriving DecidableEq, Repr

/-- State touched by the payment and product services: the Payment and
Product tables keyed by id, and the append-only Activity log.  The source
also trims the activity history per user to 100 entries and maintains
caches; neither affects the payment, product or loyalty records. -/
structure Store where
  payments : String → Option Payment
  products : String → Option Product
  activities : List Activity
  loyalty : String → Option LoyaltyAccount

/-- Save of a payment record under the id key the row was found with. -/
def savePayment (s : Store) (key : String) (p : Payment) : Store :=
  { s with payments := fun i => if i = key then some p else s.payments i }

/-- Save of a product record under the id key the row was found with. -/
def saveProduct (s : Store) (key : String) (p : Product) : Store :=
  { s with products := fun i => if i = key then some p else s.products i }

/-- Append of an activity entry (UserService.recordActivity). -/
def recordActivity (s : Store) (a : Activity) : Store :=
  { s with activities := s.activities ++ [a] }

/-- Input object of PaymentService.createPayment. -/
structure PaymentData where
  userId : String
  userName : String
  productId : String
  productName : String
  amount : ℚ
deriving DecidableEq, Repr

/-- Expiration window of a payment in seconds
(PaymentService.createPayment, expirationTime). -/
def paymentExpirationSeconds : Int := 1800

/-- Creation of a payment, PaymentService.createPayment: status PENDING,
method PIX, expiry now plus 1800 seconds.  The database id and the PIX
code and QR url artifacts are supplied by collaborators. -/
def createPayment (s : Store) (d : PaymentData) (newId : String)
    (pixCode qrCodeUrl : String) (now : Int) : Payment × Store :=
  let p : Payment :=
    { id := newId
      userId := d.userId
      userName := d.userName
      productId := d.productId
      productName := d.productName
      amount := d.amount
      method := "PIX"
      status := PaymentStatus.PENDING
      createdAt := now
      expiresAt := now + paymentExpirationSeconds * 1000
      pixCode := pixCode
      qrCodeUrl := qrCodeUrl }
  (p, savePayment s newId p)

/-- Outcome of PaymentService.approvePayment; constructors correspond to
the JS result objects: payment missing, payment no longer
PENDING/PROCESSING, product missing or unavailable or sold (which also
rejects the payment), and success with delivered credentials. -/
inductive ApproveOutcome where
  | notFound
  | alreadyFinalized (st : PaymentStatus)
  | productUnavailable
  | approved (creds : Credentials)
deriving DecidableEq, Repr

/-- Approval of a payment, PaymentService.approvePayment.  Note that the
current time is consulted only to fill timestamps: the source never
compares now against the expiresAt of the payment, and the loyalty table
is never touched (the source only records a PRODUCT_PURCHASE activity). -/
def approvePayment (s : Store) (paymentId adminId : String) (now : Int)
    (creds : Credentials) : ApproveOutcome × Store :=
  match s.payments paymentId with
  | none => (ApproveOutcome.notFound, s)
  | some payment =>
    if payment.status ≠ PaymentStatus.PENDING ∧
        payment.status ≠ PaymentStatus.PROCESSING then
      (ApproveOutcome.alreadyFinalized payment.status, s)
    else
      let productOk : Option Product :=
        match s.products payment.productId with
        | none => none
        | some product =>
          if !product.disponivel || product.vendido then none else some product
      match productOk with
      | none =>
        let payment' :=
          { payment with
            status := PaymentStatus.REJECTED
            rejectedAt := some now
            rejectionReason := some "Produto não disponível" }
        (ApproveOutcome.productUnavailable, savePayment s paymentId payment')
      | some product =>
        let payment' :=
          { payment with
            status := PaymentStatus.COMPLETED
            completedAt := some now
            approvedBy := some adminId
            deliveryData := some creds }
        let product' :=
          { product with
            vendido := true
            disponivel := false
            dataVenda := some now
            compradoPor := some payment.userId }
        let s' := saveProduct (savePayment s paymentId payment') payment.productId product'
        let s'' := recordActivity s'
          { userId := payment.userId
            action := "PRODUCT_PURCHASE"
            createdAt := now
            productId := some product.id
            productName := some product.nome
            paymentId := some payment.id
            amount := some payment.amount }
        (ApproveOutcome.approved creds, s'')

/-- Outcome of PaymentService.rejectPayment. -/
inductive RejectOutcome where
  | notFound
  | alreadyCompleted
  | alreadyRejected
  | rejected
deriving DecidableEq, Repr

/-- Rejection of a payment, PaymentService.rejectPayment.  The guard only
excludes the statuses COMPLETED and REJECTED. -/
def rejectPayment (s : Store) (paymentId reason adminId : String)
    (now : Int) : RejectOutcome × Store :=
  match s.payments paymentId with
  | none => (RejectOutcome.notFound, s)
  | some payment =>
    if payment.status = PaymentStatus.COMPLETED then
      (RejectOutcome.alreadyCompleted, s)
    else if payment.status = PaymentStatus.REJECTED then
      (RejectOutcome.alreadyRejected, s)
    else
      let payment' :=
        { payment with
          status := PaymentStatus.REJECTED
          rejectedAt := some now
          rejectionReason := some reason
          rejectedBy := some adminId }
      let s' := savePayment s paymentId payment'
      let s'' := recordActivity s'
        { userId := payment.userId
          action := "PAYMENT_REJECTED"
          createdAt := now
          paymentId := some payment.id
          productId := some payment.productId
          reason := some reason }
      (RejectOutcome.rejected, s'')

/-- Outcome of ProductService.markProductAsSold. -/
inductive MarkSoldOutcome where
  | notFound
  | alreadySold
  | ok
deriving DecidableEq, Repr

/-- Marking of a product as sold, ProductService.markProductAsSold. -/
def markProductAsSold (s : Store) (productId userId : String) (now : Int) :
    MarkSoldOutcome × Store :=
  match s.products productId with
  | none => (MarkSoldOutcome.notFound, s)
  | some produto =>
    if produto.vendido then (MarkSoldOutcome.alreadySold, s)
    else
      let produto' :=
        { produto with
          vendido := true
          disponivel := false
          dataVenda := some now
          compradoPor := some userId }
      (MarkSoldOutcome.ok, saveProduct s productId produto')

/-- Update payload of ProductService.updateProduct, restricted to the
modeled fields of the allowed list nome, preco, descricao, disponivel. -/
structure ProductUpdate where
  nome : Option String := none
  preco : Option ℚ := none
  descricao : Option String := none
  disponivel : Option Bool := none
deriving DecidableEq, Repr

/-- Outcome of ProductService.updateProduct. -/
inductive UpdateOutcome where
  | notFound
  | ok
deriving DecidableEq, Repr

/-- Update of a product, ProductService.updateProduct: every present field
of the allowed list is copied onto the record.  The field disponivel is in
the allowed list while vendido is not. -/
def updateProduct (s : Store) (productId : String) (upd : ProductUpdate) :
    UpdateOutcome × Store :=
  match s.products productId with
  | none => (UpdateOutcome.notFound, s)
  | some produto =>
    let produto' :=
      { produto with
        nome := upd.nome.getD produto.nome
        preco := upd.preco.getD produto.preco
        descricao := upd.descricao.getD produto.descricao
        disponivel := upd.disponivel.getD produto.disponivel }
    (UpdateOutcome.ok, saveProduct s productId produto')

/-! Fraud detection system (src/ai/fraud.js).  The collaborators consulted
by the engine (assessment cache, user profile, activity history, purchase
history) are modeled as an environment of fallible lookups: an Except
error stands for a thrown JS exception, which the engine catches. -/

/-- Risk tier of an assessment. -/
inductive RiskLevel where
  | low
  | medium
  | high
deriving DecidableEq, Repr

/-- Result of FraudDetectionSystem.assessUserRisk. -/
structure Assessment where
  risk : RiskLevel
  score : Int
  factors : List String
  timestamp : Int
deriving DecidableEq, Repr

/-- User profile fields read by the engine. -/
structure UserProfile where
  createdAt : Int
  email : Option String := none
  isBlocked : Bool := false
  blockReason : Option String := none
deriving DecidableEq, Repr

/-- Activity entry as seen by the engine.  The engine reads
activity.timestamp, a field the stored activity records do not always
carry; a missing timestamp makes the JS date arithmetic produce NaN, so
every comparison on it is false, which the Option models. -/
structure FraudActivity where
  action : String
  timestamp : Option Int := none
  ipAddress : Option String := none
deriving DecidableEq, Repr

/-- Purchase entry returned by getPurchaseHistory. -/
structure Purchase where
  productId : String
  amount : ℚ
  method : String
  date : Int
deriving DecidableEq, Repr

/-- Environment of collaborator lookups for one engine invocation. -/
structure FraudEnv where
  cacheGet : Except Unit (Option Assessment)
  getUserProfile : Except Unit (Option UserProfile)
  getUserHistory : Except Unit (List FraudActivity)
  getPurchaseHistory : Except Unit (List Purchase)

/-- Suspicious email domain list of the engine constructor. -/
def suspiciousEmailDomains : List String :=
  ["tempmail.com", "disposable.com", "mailinator.com",
   "guerrillamail.com", "yopmail.com", "throwawaymail.com"]

/-- High risk threshold (riskThresholds.high). -/
def riskThresholdHigh : Int := 80

/-- Medium risk threshold (riskThresholds.medium). -/
def riskThresholdMedium : Int := 60

/-- Account age in days, as the JS float division computes it. -/
def accountAgeDays (now : Int) (p : UserProfile) : ℚ :=
  ((now - p.createdAt : Int) : ℚ) / 86400000

/-- Age component of the risk score. -/
def ageScore (now : Int) (p : UserProfile) : Int :=
  if accountAgeDays now p < 1 then 30
  else if accountAgeDays now p < 7 then 20
  else if accountAgeDays now p < 30 then 10
  else 0

/-- Lowercased domain part of an email, email.split at the arroba then
index 1.  When the email has no arroba the JS code calls toLowerCase on
undefined and throws. -/
def emailDomain (e : String) : Except Unit String :=
  match (e.splitOn "@").get? 1 with
  | some d => Except.ok d.toLower
  | none => Except.error ()

/-- Email component of the risk score; the block is skipped when the email
is absent or empty (JS truthiness). -/
def emailScore (p : UserProfile) : Except Unit Int :=
  match p.email with
  | none => Except.ok 0
  | some e =>
    if e = "" then Except.ok 0
    else
      match emailDomain e with
      | Except.error u => Except.error u
      | Except.ok d =>
        Except.ok (if suspiciousEmailDomains.contains d then 25 else 0)

/-- Purchase attempt within the last rolling hour. -/
def isRecentAttempt (now : Int) (a : FraudActivity) : Bool :=
  match a.timestamp with
  | some t => now - t < 3600000
  | none => false

/-- Activity-history component of the risk score. -/
def historyScore (now : Int) (hist : List FraudActivity) : Int :=
  if hist.isEmpty then 15
  else
    let attempts := hist.filter (fun a => a.action == "PAYMENT_INITIATED")
    let successes := hist.filter (fun a =>
      a.action == "PAYMENT_COMPLETED" || a.action == "PRODUCT_PURCHASE")
    let s1 : Int :=
      if 5 < attempts.length ∧
          (successes.length : ℚ) / (attempts.length : ℚ) < 3 / 10 then 15 else 0
    let s2 : Int :=
      if 0 < (hist.filter (fun a => a.action == "REPORTED_BY_ADMIN")).length
      then 40 else 0
    let s3 : Int :=
      if 3 ≤ (attempts.filter (isRecentAttempt now)).length then 20 else 0
    s1 + s2 + s3

/-- Blocked-account component of the risk score. -/
def blockedScore (p : UserProfile) : Int :=
  if p.isBlocked then 100 else 0

/-- Additive risk score capped at 100,
FraudDetectionSystem._calculateRiskScore. -/
def _calculateRiskScore (now : Int) (p : UserProfile)
    (hist : List FraudActivity) : Except Unit Int :=
  match emailScore p with
  | Except.error u => Except.error u
  | Except.ok e =>
    Except.ok (min (ageScore now p + e + historyScore now hist + blockedScore p) 100)

/-- Email factor tag of _identifyRiskFactors, with the same JS truthiness
guard and the same potential throw as the score computation. -/
def emailFactor (p : UserProfile) : Except Unit (List String) :=
  match p.email with
  | none => Except.ok []
  | some e =>
    if e = "" then Except.ok []
    else
      match emailDomain e with
      | Except.error u => Except.error u
      | Except.ok d =>
        Except.ok
          (if suspiciousEmailDomains.contains d then ["suspicious_email_domain"]
           else [])

/-- Contributing factor tags,
FraudDetectionSystem._identifyRiskFactors. -/
def _identifyRiskFactors (now : Int) (p : UserProfile)
    (hist : List FraudActivity) : Except Unit (List String) :=
  let ageF : List String :=
    if accountAgeDays now p < 1 then ["very_new_account"]
    else if accountAgeDays now p < 7 then ["new_account"]
    else []
  let blockedF : List String :=
    if p.isBlocked then
      ["account_blocked",
       match p.blockReason with
       | some r => if r = "" then "unknown_block_reason" else r
       | none => "unknown_block_reason"]
    else []
  let histF : List String :=
    if hist.isEmpty then ["no_activity_history"]
    else
      let attempts := hist.filter (fun a => a.action == "PAYMENT_INITIATED")
      let successes := hist.filter (fun a =>
        a.action == "PAYMENT_COMPLETED" || a.action == "PRODUCT_PURCHASE")
      let f1 : List String :=
        if 5 < attempts.length ∧
            (successes.length : ℚ) / (attempts.length : ℚ) < 3 / 10
        then ["high_failure_rate"] else []
      let f2 : List String :=
        if 3 ≤ (attempts.filter (isRecentAttempt now)).length
        then ["rapid_purchase_attempts"] else []
      let f3 : List String :=
        if hist.any (fun a => a.action == "REPORTED_BY_ADMIN")
        then ["previously_reported"] else []
      f1 ++ f2 ++ f3
  match emailFactor p with
  | Except.error u => Except.error u
  | Except.ok emailF => Except.ok (ageF ++ emailF ++ blockedF ++ histF)

/-- Conservative default returned by the catch of assessUserRisk. -/
def defaultAssessment (now : Int) : Assessment :=
  { risk := RiskLevel.low, score := 0, factors := ["assessment_error"],
    timestamp := now }

/-- Body of FraudDetectionSystem.assessUserRisk before its catch: cache
probe, profile lookup with the medium default for unknown users, then
score, tier and factor computation over the 100 most recent activities. -/
def assessUserRiskCore (env : FraudEnv) (now : Int) : Except Unit Assessment :=
  match env.cacheGet with
  | Except.error u => Except.error u
  | Except.ok (some a) => Except.ok a
  | Except.ok none =>
    match env.getUserProfile with
    | Except.error u => Except.error u
    | Except.ok none =>
      Except.ok { risk := RiskLevel.medium, score := 50,
                  factors := ["new_user", "unknown_profile"], timestamp := now }
    | Except.ok (some p) =>
      match env.getUserHistory with
      | Except.error u => Except.error u
      | Except.ok hist0 =>
        let hist := hist0.take 100
        match _calculateRiskScore now p hist with
        | Except.error u => Except.error u
        | Except.ok score =>
          let level :=
            if score ≥ riskThresholdHigh then RiskLevel.high
            else if score ≥ riskThresholdMedium then RiskLevel.medium
            else RiskLevel.low
          match _identifyRiskFactors now p hist with
          | Except.error u => Except.error u
          | Except.ok factors =>
            Except.ok { risk := level, score := score, factors := factors,
                        timestamp := now }

/-- Public assessUserRisk: the catch turns any internal failure into the
low-risk zero-score default tagged assessment_error. -/
def assessUserRisk (env : FraudEnv) (now : Int) : Assessment :=
  match assessUserRiskCore env now with
  | Except.ok a => a
  | Except.error _ => defaultAssessment now

/-- Transaction details passed to verifyTransaction. -/
structure TransactionInput where
  userId : String
  productId : String
  amount : ℚ
  paymentMethod : String
  ipAddress : Option String := none
deriving DecidableEq, Repr

/-- Result of FraudDetectionSystem.checkTransaction. -/
structure CheckResult where
  approved : Bool
  score : Int
  reasons : List String
deriving DecidableEq, Repr

/-- Fail-open default returned by the catch of checkTransaction. -/
def defaultCheckResult : CheckResult :=
  { approved := true, score := 0, reasons := ["verification_error"] }

/-- New-ip factor of checkTransaction; skipped when no ip address is
given, fallible through the activity history lookup. -/
def ipFactor (env : FraudEnv) (t : TransactionInput) :
    Except Unit (List String) :=
  match t.ipAddress with
  | none => Except.ok []
  | some ip =>
    match env.getUserHistory with
    | Except.error u => Except.error u
    | Except.ok acts =>
      let prevIPs := (acts.take 50).filterMap (fun a => a.ipAddress)
      Except.ok
        (if 0 < prevIPs.length ∧ ¬ prevIPs.contains ip
         then ["new_ip_address"] else [])

/-- Body of FraudDetectionSystem.checkTransaction before its catch: early
rejection for high user risk, then per-transaction factors each worth 15
points on top of the base user score; the sum is not capped. -/
def checkTransactionCore (env : FraudEnv) (now : Int) (t : TransactionInput) :
    Except Unit CheckResult :=
  let userRisk := assessUserRisk env now
  if userRisk.risk = RiskLevel.high then
    Except.ok { approved := false, score := userRisk.score,
                reasons := userRisk.factors }
  else
    match env.getPurchaseHistory with
    | Except.error u => Except.error u
    | Except.ok hist =>
      let amountF : List String :=
        if 0 < hist.length then
          let avg : ℚ := (hist.map (fun p => p.amount)).sum / (hist.length : ℚ)
          if t.amount > avg * 3 then ["amount_much_higher_than_average"] else []
        else []
      let recentF : List String :=
        if 0 < (hist.filter (fun p =>
            p.productId == t.productId && now - p.date < 604800000)).length
        then ["repeated_purchase"] else []
      let methodF : List String :=
        if t.paymentMethod ≠ "PIX" ∧ 0 < hist.length ∧
            hist.all (fun p => p.method == "PIX")
        then ["unusual_payment_method"] else []
      match ipFactor env t with
      | Except.error u => Except.error u
      | Except.ok ipF =>
        let txFactors := amountF ++ recentF ++ methodF ++ ipF
        let finalScore := userRisk.score + txFactors.length * 15
        Except.ok { approved := finalScore < riskThresholdHigh,
                    score := finalScore,
                    reasons := userRisk.factors ++ txFactors }

/-- Public verifyTransaction: the catch turns any internal failure into
the approving zero-score default tagged verification_error. -/
def checkTransaction (env : FraudEnv) (now : Int) (t : TransactionInput) :
    CheckResult :=
  match checkTransactionCore env now t with
  | Except.ok r => r
  | Except.error _ => defaultCheckResult

/-! Derived views and concrete fixtures used by the theorems below. -/

/-- Lifetime points recorded for a user, zero when no account exists. -/
def lifetimeOf (s : LoyaltyStore) (u : String) : Int :=
  match s.accounts u with
  | some l => l.lifetimePoints
  | none => 0

/-- Invariant of the product table: a sold product is not available. -/
def soldImpliesUnavailable (s : Store) : Prop :=
  ∀ pid p, s.products pid = some p → p.vendido = true → p.disponivel = false

/-- Empty loyalty store. -/
def emptyLoyaltyStore : LoyaltyStore := ⟨fun _ => none, fun _ => none⟩

/-- Fixture: a credit of 100 points that expired at time 500. -/
def demoExpiredCredit : LoyaltyTx :=
  { id := "t1", amount := 100, reason := "PURCHASE", createdAt := 0,
    expiresAt := 500, status := TxStatus.ACTIVE }

/-- Fixture: an account still carrying the stale credit in its balance. -/
def demoStaleAccount : LoyaltyAccount :=
  { userId := "u1", userName := "alice", totalPoints := 100,
    lifetimePoints := 100, level := 1, transactions := [demoExpiredCredit] }

/-- Fixture: loyalty store holding only the stale account. -/
def demoLoyaltyStore : LoyaltyStore :=
  ⟨fun u => if u = "u1" then some demoStaleAccount else none, fun _ => none⟩

/-- Fixture: an available, unsold product. -/
def demoProduct : Product :=
  { id := "p1", nome := "conta valorant", tipo := "valorant",
    preco := 5990 / 100, disponivel := true, vendido := false }

/-- Fixture: a sold product, no longer available. -/
def demoSoldProduct : Product :=
  { id := "p2", nome := "conta gold", tipo := "valorant", preco := 10,
    disponivel := false, vendido := true, dataVenda := some 100,
    compradoPor := some "u2" }

/-- Fixture: store holding the two products and no payments. -/
def demoStore : Store :=
  ⟨fun _ => none,
   fun i => if i = "p1" then some demoProduct
            else if i = "p2" then some demoSoldProduct else none,
   [], fun _ => none⟩

/-- Fixture: purchase request for the available product. -/
def demoPaymentData : PaymentData :=
  { userId := "u1", userName := "alice", productId := "p1",
    productName := "conta valorant", amount := 5990 / 100 }

/-- Fixture: delivery credentials handed to the approval embedding. -/
def demoCreds : Credentials := { login := "user_ab12", password := "s3nh4" }

/-- Fixture: a payment already in status COMPLETED. -/
def demoCompletedPayment : Payment :=
  { id := "payC", userId := "u1", userName := "alice", productId := "p1",
    productName := "conta valorant", amount := 10, method := "PIX",
    status := PaymentStatus.COMPLETED, createdAt := 0, expiresAt := 1800000,
    completedAt := some 60000, approvedBy := some "adm1",
    deliveryData := some demoCreds }

/-- Fixture: a payment already in status REJECTED. -/
def demoRejectedPayment : Payment :=
  { id := "payR", userId := "u1", userName := "alice", productId := "p1",
    productName := "conta valorant", amount := 10, method := "PIX",
    status := PaymentStatus.REJECTED, createdAt := 0, expiresAt := 1800000,
    rejectedAt := some 60000, rejectionReason := some "fraude",
    rejectedBy := some "adm1" }

/-- Fixture: a payment already in status EXPIRED. -/
def demoExpiredPayment : Payment :=
  { id := "payE", userId := "u1", userName := "alice", productId := "p1",
    productName := "conta valorant", amount := 10, method := "PIX",
    status := PaymentStatus.EXPIRED, createdAt := 0, expiresAt := 1800000 }

/-- Fixture: a payment still PENDING, referencing the sold product. -/
def demoPendingPayment : Payment :=
  { id := "payP", userId := "u1", userName := "alice", productId := "p2",
    productName := "conta gold", amount := 10, method := "PIX",
    status := PaymentStatus.PENDING, createdAt := 0, expiresAt := 1800000 }

/-- Fixture: store holding the four payments and the two products. -/
def demoPaymentStore : Store :=
  ⟨fun i => if i = "payC" then some demoCompletedPayment
            else if i = "payR" then some demoRejectedPayment
            else if i = "payE" then some demoExpiredPayment
            else if i = "payP" then some demoPendingPayment else none,
   fun i => if i = "p1" then some demoProduct
            else if i = "p2" then some demoSoldProduct else none,
   [], fun _ => none⟩

/-- Fixture: engine environment with an unknown user profile, one previous
activity carrying an ip address, and one previous PIX purchase. -/
def demoFraudEnv : FraudEnv :=
  ⟨Except.ok none,
   Except.ok none,
   Except.ok [{ action := "LOGIN", ipAddress := some "10.0.0.1" }],
   Except.ok [{ productId := "p1", amount := 10, method := "PIX", date := 0 }]⟩

/-- Fixture: transaction inputs hitting all four per-attempt factors. -/
def demoTransaction : TransactionInput :=
  { userId := "u1", productId := "p1", amount := 100, paymentMethod := "CARD",
    ipAddress := some "10.9.9.9" }

/-- Fixture: environment whose cache lookup throws. -/
def demoFailingCacheEnv : FraudEnv :=
  ⟨Except.error (), Except.ok none, Except.ok [], Except.ok []⟩

/-- Fixture: environment whose purchase history lookup throws, with a
known low-risk base user (the profile lookup fails open first). -/
def demoFailingHistoryEnv : FraudEnv :=
  ⟨Except.ok none, Except.error (), Except.ok [], Except.error ()⟩

/-! Lemmas about the loyalty expiration sweep. -/

theorem expiredActive_flipExpired (now : Int) (tx : LoyaltyTx) :
    expiredActive now (flipExpired now tx) = false := by
  unfold flipExpired
  by_cases h : expiredActive now tx
  · rw [if_pos h]
    rfl
  · rw [if_neg h]
    simpa using h

theorem filter_expiredActive_flip_nil (now : Int) (txs : List LoyaltyTx) :
    (txs.map (flipExpired now)).filter (expiredActive now) = [] := by
  induction txs with
  | nil => rfl
  | cons tx rest ih =>
    simp only [List.map_cons, List.filter_cons, expiredActive_flipExpired, ih,
      if_neg, Bool.false_eq_true, if_false]

theorem sweep_not_fired (now : Int) (l : LoyaltyAccount)
    (h : ¬ 0 < pointsExpired now l) : _processExpiredPoints now l = l := by
  unfold _processExpiredPoints
  rw [if_neg h]

theorem pointsExpired_sweep_fired (now : Int) (l : LoyaltyAccount)
    (h : 0 < pointsExpired now l) :
    pointsExpired now (_processExpiredPoints now l) = 0 := by
  unfold _processExpiredPoints
  rw [if_pos h]
  unfold pointsExpired
  dsimp only
  rw [List.filter_append, filter_expiredActive_flip_nil]
  rfl

theorem sweep_lifetimePoints (now : Int) (l : LoyaltyAccount) :
    (_processExpiredPoints now l).lifetimePoints = l.lifetimePoints := by
  unfold _processExpiredPoints
  by_cases h : 0 < pointsExpired now l
  · rw [if_pos h]
  · rw [if_neg h]

/-- Claim C6: the loyalty reconciliation pass is idempotent; a second run
of the expired-points sweep at the same instant leaves the account exactly
as the first run left it, so the balance is unchanged and no transaction
entry is appended. -/
theorem c6_reconciliation_idempotent (now : Int) (l : LoyaltyAccount) :
    _processExpiredPoints now (_processExpiredPoints now l) =
      _processExpiredPoints now l := by
  by_cases h : 0 < pointsExpired now l
  · refine sweep_not_fired now _ ?_
    rw [pointsExpired_sweep_fired now l h]
    exact lt_irrefl 0
  · rw [sweep_not_fired now l h]
    exact sweep_not_fired now l h

/-- Claim C9: the loyalty tier is a pure function of lifetime points with
thresholds 10000, 5000, 2000 and 500 (so 2000 lifetime points sit exactly
at tier 3 and 1999 at tier 2), and no loyalty operation, credit, debit or
balance read with its expiration sweep, ever decreases the recorded
lifetime points of any user. -/
theorem c9_tier_thresholds_lifetime_monotone :
    (∀ n : Int, _calculateLoyaltyLevel n =
      if n ≥ 10000 then 5 else if n ≥ 5000 then 4 else if n ≥ 2000 then 3
      else if n ≥ 500 then 2 else 1) ∧
    _calculateLoyaltyLevel 2000 = 3 ∧
    _calculateLoyaltyLevel 1999 = 2 ∧
    (∀ s u points reason meta now u',
      lifetimeOf s u' ≤ lifetimeOf ((addPoints s u points reason meta now).2) u') ∧
    (∀ s u points reason meta now u',
      lifetimeOf ((usePoints s u points reason meta now).2) u' = lifetimeOf s u') ∧
    (∀ s u now u',
      lifetimeOf ((getUserPoints s u now).2) u' = lifetimeOf s u') := by
  refine ⟨fun n => rfl, by decide, by decide, ?_, ?_, ?_⟩
  · intro s u points reason meta now u'
    unfold addPoints
    by_cases hp : points ≤ 0
    · rw [if_pos hp]
    · rw [if_neg hp]
      push_neg at hp
      cases hacc : s.accounts u with
      | some l =>
        simp only [hacc]
        unfold lifetimeOf saveAccount
        dsimp only
        by_cases hu : u' = u
        · rw [if_pos hu, hu, hacc]
          dsimp only
          omega
        · rw [if_neg hu]
      | none =>
        cases husr : s.users u with
        | none => simp only [hacc, husr]; exact le_refl _
        | some usr =>
          simp only [hacc, husr]
          unfold lifetimeOf saveAccount
          dsimp only
          by_cases hu : u' = u
          · rw [if_pos hu, hu, hacc]
            dsimp only
            omega
          · rw [if_neg hu]
  · intro s u points reason meta now u'
    unfold usePoints
    by_cases hp : points ≤ 0
    · rw [if_pos hp]
    · rw [if_neg hp]
      cases hacc : s.accounts u with
      | none => simp only [hacc]
      | some l =>
        simp only [hacc]
        by_cases hlt : l.totalPoints < points
        · rw [if_pos hlt]
        · rw [if_neg hlt]
          unfold lifetimeOf saveAccount
          dsimp only
          by_cases hu : u' = u
          · rw [if_pos hu, hu, hacc]
          · rw [if_neg hu]
  · intro s u now u'
    unfold getUserPoints
    cases hacc : s.accounts u with
    | none => simp only [hacc]
    | some l =>
      simp only [hacc]
      by_cases hfire : 0 < pointsExpired now l
      · rw [if_pos hfire]
        unfold lifetimeOf saveAccount
        dsimp only
        by_cases hu : u' = u
        · rw [if_pos hu, hu, hacc]
          dsimp only
          rw [sweep_lifetimePoints]
        · rw [if_neg hu]
      · rw [if_neg hfire]

/-- Claim C10: reading the points of a user who has no loyalty account
returns the empty default view with zero balance, zero lifetime points,
level 1, no transactions and zero money value, and leaves the store
untouched; in particular no loyalty account is created by the read. -/
theorem c10_get_points_missing_account (s : LoyaltyStore) (u : String)
    (now : Int) (h : s.accounts u = none) :
    getUserPoints s u now =
      ({ amount := 0, lifetimePoints := 0, level := 1, transactions := [],
         valueInMoney := 0 }, s) := by
  unfold getUserPoints
  rw [h]

theorem c10_witness :
    emptyLoyaltyStore.accounts "u1" = none ∧
    getUserPoints emptyLoyaltyStore "u1" 0 =
      ({ amount := 0, lifetimePoints := 0, level := 1, transactions := [],
         valueInMoney := 0 }, emptyLoyaltyStore) :=
  ⟨rfl, c10_get_points_missing_account emptyLoyaltyStore "u1" 0 rfl⟩

/-- Claim C5, counterexample: an account holds a single ACTIVE credit of
100 points that expired at time 500, with stored balance 100.  At time
1000 the reconciled balance is 0, so by the claim a debit of 50 must fail
with an insufficient-balance result; the code instead debits successfully,
because usePoints never runs the reconciliation pass. -/
theorem c5_counterexample :
    (usePoints demoLoyaltyStore "u1" 50 "REDEEM" {} 1000).1 =
      UsePointsResult.ok 50 1 ∧
    (_processExpiredPoints 1000 demoStaleAccount).totalPoints = 0 ∧
    (0 : Int) < 50 := by
  refine ⟨rfl, rfl, by decide⟩

/-- Claim C5, amended: only the balance read getUserPoints runs the
expiration reconciliation pass; the credit and debit paths do not, and the
debit fails with an insufficient-balance result exactly when the requested
points exceed the stored, pre-reconciliation balance.  Both write paths
append one transaction and leave the existing entries untouched. -/
theorem c5_reconciliation_only_on_read (s : LoyaltyStore) (u reason : String)
    (points : Int) (meta : TxMeta) (now : Int) (l : LoyaltyAccount)
    (hl : s.accounts u = some l) :
    (((getUserPoints s u now).2).accounts u =
      some (_processExpiredPoints now l)) ∧
    (0 < points →
      (((usePoints s u points reason meta now).1 =
          UsePointsResult.insufficientBalance l.totalPoints points) ↔
        l.totalPoints < points)) ∧
    (0 < points → l.totalPoints < points →
      usePoints s u points reason meta now =
        (UsePointsResult.insufficientBalance l.totalPoints points, s)) ∧
    (0 < points → points ≤ l.totalPoints →
      ∃ tx, ((usePoints s u points reason meta now).2).accounts u =
        some { l with
               transactions := l.transactions ++ [tx]
               totalPoints := l.totalPoints - points
               lastUpdated := now }) ∧
    (0 < points →
      ∃ tx, ((addPoints s u points reason meta now).2).accounts u =
        some { l with
               transactions := l.transactions ++ [tx]
               totalPoints := l.totalPoints + points
               lifetimePoints := l.lifetimePoints + points
               level := _calculateLoyaltyLevel (l.lifetimePoints + points)
               lastUpdated := now }) := by
  refine ⟨?_, ?_, ?_, ?_, ?_⟩
  · unfold getUserPoints
    rw [hl]
    dsimp only
    by_cases hfire : 0 < pointsExpired now l
    · rw [if_pos hfire]
      unfold saveAccount
      dsimp only
      rw [if_pos rfl]
    · rw [if_neg hfire, sweep_not_fired now l hfire, hl]
  · intro hp
    unfold usePoints
    rw [if_neg (by omega), hl]
    dsimp only
    by_cases hlt : l.totalPoints < points
    · rw [if_pos hlt]
      simp [hlt]
    · rw [if_neg hlt]
      simp [hlt]
  · intro hp hlt
    unfold usePoints
    rw [if_neg (by omega), hl]
    dsimp only
    rw [if_pos hlt]
  · intro hp hle
    unfold usePoints
    rw [if_neg (by omega), hl]
    dsimp only
    rw [if_neg (by omega)]
    refine ⟨{ id := toString now, amount := -points, reason := reason,
              createdAt := now, expiresAt := now + msPerYear,
              status := TxStatus.USED, relatedProductId := meta.productId,
              relatedPaymentId := meta.paymentId,
              actionBy := meta.adminId }, ?_⟩
    unfold saveAccount
    dsimp only
    rw [if_pos rfl]
  · intro hp
    unfold addPoints
    rw [if_neg (by omega), hl]
    dsimp only
    refine ⟨{ id := toString now, amount := points, reason := reason,
              createdAt := now,
              expiresAt := now + expirationDays * msPerDay,
              status := TxStatus.ACTIVE, relatedProductId := meta.productId,
              relatedPaymentId := meta.paymentId }, ?_⟩
    unfold saveAccount
    dsimp only
    rw [if_pos rfl]

theorem c5_witness :
    (((getUserPoints demoLoyaltyStore "u1" 1000).2).accounts "u1" =
      some (_processExpiredPoints 1000 demoStaleAccount)) ∧
    (((usePoints demoLoyaltyStore "u1" 200 "REDEEM" {} 1000).1 =
        UsePointsResult.insufficientBalance demoStaleAccount.totalPoints 200) ↔
      demoStaleAccount.totalPoints < 200) :=
  ⟨(c5_reconciliation_only_on_read demoLoyaltyStore "u1" "REDEEM" 200 {} 1000
      demoStaleAccount rfl).1,
   (c5_reconciliation_only_on_read demoLoyaltyStore "u1" "REDEEM" 200 {} 1000
      demoStaleAccount rfl).2.1 (by decide)⟩

/-- Claim C1, behavior of the code at the failing input: a payment created
at time 0 carries expiresAt 1800000 ms, creation plus 1800 seconds, yet an
approval attempted at 1801000 ms, one second past expiry, succeeds and
completes the payment instead of failing with an Expired result and
marking the record EXPIRED: approvePayment never consults the expiration
time, and no operation in the repository ever assigns the EXPIRED
status. -/
theorem c1_approval_ignores_expiration :
    (createPayment demoStore demoPaymentData "pay1" "pixcode" "qrurl" 0).1.expiresAt
      = 1800000 ∧
    (approvePayment
        (createPayment demoStore demoPaymentData "pay1" "pixcode" "qrurl" 0).2
        "pay1" "adm1" 1801000 demoCreds).1 = ApproveOutcome.approved demoCreds ∧
    (((approvePayment
        (createPayment demoStore demoPaymentData "pay1" "pixcode" "qrurl" 0).2
        "pay1" "adm1" 1801000 demoCreds).2).payments "pay1").map Payment.status
      = some PaymentStatus.COMPLETED :=
  ⟨rfl, rfl, rfl⟩

/-- Claim C2, behavior of the code: approving a payment never touches the
loyalty table, in any state and for any arguments; the successful branch
only appends a PRODUCT_PURCHASE activity entry, so no loyalty transaction
with reason PURCHASE and no credit at the conversion rate ever results
from an approval. -/
theorem c2_approval_never_credits_loyalty (s : Store) (pid aid : String)
    (now : Int) (creds : Credentials) :
    ((approvePayment s pid aid now creds).2).loyalty = s.loyalty := by
  unfold approvePayment
  repeat' split
  all_goals rfl

/-- Claim C3, counterexample: a payment sitting in the terminal status
EXPIRED is transitioned to REJECTED by rejectPayment, whose guard only
excludes COMPLETED and REJECTED; this contradicts the claim that no
transition out of a terminal status ever occurs. -/
theorem c3_counterexample :
    demoExpiredPayment.status = PaymentStatus.EXPIRED ∧
    (rejectPayment demoPaymentStore "payE" "cancelado" "adm1" 5).1 =
      RejectOutcome.rejected ∧
    (((rejectPayment demoPaymentStore "payE" "cancelado" "adm1" 5).2).payments
        "payE").map Payment.status = some PaymentStatus.REJECTED :=
  ⟨rfl, rfl, rfl⟩

/-- Claim C3, amended: approvePayment fails without mutating the store on
a payment in any terminal status (COMPLETED, REJECTED or EXPIRED), and
rejectPayment fails without mutating with an already-approved result on a
COMPLETED payment and an already-rejected result on a REJECTED payment;
however rejectPayment does transition an EXPIRED payment to REJECTED, so
the no-further-transition guarantee holds only out of COMPLETED and
REJECTED. -/
theorem c3_terminal_statuses (s : Store) (pid aid reason : String)
    (now : Int) (creds : Credentials) (p : Payment)
    (hp : s.payments pid = some p) :
    ((p.status = PaymentStatus.COMPLETED ∨ p.status = PaymentStatus.REJECTED ∨
        p.status = PaymentStatus.EXPIRED) →
      approvePayment s pid aid now creds =
        (ApproveOutcome.alreadyFinalized p.status, s)) ∧
    (p.status = PaymentStatus.COMPLETED →
      rejectPayment s pid reason aid now = (RejectOutcome.alreadyCompleted, s)) ∧
    (p.status = PaymentStatus.REJECTED →
      rejectPayment s pid reason aid now = (RejectOutcome.alreadyRejected, s)) := by
  refine ⟨?_, ?_, ?_⟩
  · intro hst
    have hcond : p.status ≠ PaymentStatus.PENDING ∧
        p.status ≠ PaymentStatus.PROCESSING := by
      rcases hst with h | h | h <;> rw [h] <;> exact ⟨by decide, by decide⟩
    unfold approvePayment
    rw [hp]
    dsimp only
    rw [if_pos hcond]
  · intro hc
    unfold rejectPayment
    rw [hp]
    dsimp only
    rw [if_pos hc]
  · intro hr
    unfold rejectPayment
    rw [hp]
    dsimp only
    rw [if_neg (by rw [hr]; decide), if_pos hr]

theorem c3_witness :
    approvePayment demoPaymentStore "payC" "adm1" 5 demoCreds =
      (ApproveOutcome.alreadyFinalized demoCompletedPayment.status,
        demoPaymentStore) ∧
    approvePayment demoPaymentStore "payE" "adm1" 5 demoCreds =
      (ApproveOutcome.alreadyFinalized demoExpiredPayment.status,
        demoPaymentStore) ∧
    rejectPayment demoPaymentStore "payC" "motivo" "adm1" 5 =
      (RejectOutcome.alreadyCompleted, demoPaymentStore) ∧
    rejectPayment demoPaymentStore "payR" "motivo" "adm1" 5 =
      (RejectOutcome.alreadyRejected, demoPaymentStore) :=
  ⟨(c3_terminal_statuses demoPaymentStore "payC" "adm1" "motivo" 5 demoCreds
      demoCompletedPayment rfl).1 (Or.inl rfl),
   (c3_terminal_statuses demoPaymentStore "payE" "adm1" "motivo" 5 demoCreds
      demoExpiredPayment rfl).1 (Or.inr (Or.inr rfl)),
   (c3_terminal_statuses demoPaymentStore "payC" "adm1" "motivo" 5 demoCreds
      demoCompletedPayment rfl).2.1 rfl,
   (c3_terminal_statuses demoPaymentStore "payR" "adm1" "motivo" 5 demoCreds
      demoRejectedPayment rfl).2.2 rfl⟩

/-- Claim C4, counterexample: updateProduct lists disponivel among its
updatable fields and never checks vendido, so updating a sold product with
disponivel true leaves a product that is both sold and available,
refuting the clause that sold implies unavailable after every
operation. -/
theorem c4_counterexample :
    demoSoldProduct.vendido = true ∧
    (((updateProduct demoStore "p2" { disponivel := some true }).2).products
        "p2").map (fun p => (p.vendido, p.disponivel)) = some (true, true) :=
  ⟨rfl, rfl⟩

/-- Claim C4, amended: a product is marked sold at most once, since
markProductAsSold fails without mutating on an already-sold product;
approvePayment on a PENDING or PROCESSING payment whose product is
unavailable or sold fails with a product-unavailable result and
transitions that payment to REJECTED; and the sale operations,
markProductAsSold and approvePayment, preserve the invariant that sold
implies unavailable.  The invariant is however not preserved by
updateProduct, which can set disponivel true on a sold product. -/
theorem c4_sold_at_most_once (s : Store) (pid uid aid : String) (now : Int)
    (creds : Credentials) :
    (∀ prod, s.products pid = some prod → prod.vendido = true →
      markProductAsSold s pid uid now = (MarkSoldOutcome.alreadySold, s)) ∧
    (∀ pay prod, s.payments pid = some pay →
      (pay.status = PaymentStatus.PENDING ∨
        pay.status = PaymentStatus.PROCESSING) →
      s.products pay.productId = some prod →
      (prod.disponivel = false ∨ prod.vendido = true) →
      (approvePayment s pid aid now creds).1 =
          ApproveOutcome.productUnavailable ∧
        (((approvePayment s pid aid now creds).2).payments pid).map
          Payment.status = some PaymentStatus.REJECTED) ∧
    (soldImpliesUnavailable s →
      soldImpliesUnavailable ((markProductAsSold s pid uid now).2)) ∧
    (soldImpliesUnavailable s →
      soldImpliesUnavailable ((approvePayment s pid aid now creds).2)) := by
  refine ⟨?_, ?_, ?_, ?_⟩
  · intro prod hp hv
    unfold markProductAsSold
    rw [hp]
    dsimp only
    rw [if_pos hv]
  · intro pay prod hp hst hprod hbad
    have hnot : ¬ (pay.status ≠ PaymentStatus.PENDING ∧
        pay.status ≠ PaymentStatus.PROCESSING) := by
      rcases hst with h | h
      · exact fun hcon => hcon.1 h
      · exact fun hcon => hcon.2 h
    have hbool : (!prod.disponivel || prod.vendido) = true := by
      rcases hbad with h | h <;> simp [h]
    unfold approvePayment
    rw [hp]
    dsimp only
    rw [if_neg hnot, hprod]
    dsimp only
    rw [if_pos hbool]
    refine ⟨rfl, ?_⟩
    unfold savePayment
    dsimp only
    rw [if_pos rfl]
    rfl
  · intro hinv
    unfold markProductAsSold
    cases hpp : s.products pid with
    | none => exact hinv
    | some produto =>
      dsimp only
      by_cases hv : produto.vendido = true
      · rw [if_pos hv]
        exact hinv
      · rw [if_neg hv]
        intro pid' p' h' hv'
        unfold saveProduct at h'
        dsimp only at h'
        by_cases hk : pid' = pid
        · rw [if_pos hk] at h'
          injection h' with h'
          rw [← h']
        · rw [if_neg hk] at h'
          exact hinv pid' p' h' hv'
  · intro hinv
    unfold approvePayment
    cases hp : s.payments pid with
    | none => exact hinv
    | some payment =>
      dsimp only
      by_cases hst : payment.status ≠ PaymentStatus.PENDING ∧
          payment.status ≠ PaymentStatus.PROCESSING
      · rw [if_pos hst]
        exact hinv
      · rw [if_neg hst]
        cases hpr : s.products payment.productId with
        | none =>
          dsimp only
          intro pid' p' h' hv'
          exact hinv pid' p' h' hv'
        | some product =>
          dsimp only
          by_cases hbool : (!product.disponivel || product.vendido) = true
          · rw [if_pos hbool]
            intro pid' p' h' hv'
            exact hinv pid' p' h' hv'
          · rw [if_neg hbool]
            intro pid' p' h' hv'
            unfold recordActivity saveProduct savePayment at h'
            dsimp only at h'
            by_cases hk : pid' = payment.productId
            · rw [if_pos hk] at h'
              injection h' with h'
              rw [← h']
            · rw [if_neg hk] at h'
              exact hinv pid' p' h' hv'

theorem c4_witness :
    markProductAsSold demoPaymentStore "p2" "u1" 5 =
      (MarkSoldOutcome.alreadySold, demoPaymentStore) ∧
    (approvePayment demoPaymentStore "payP" "adm1" 5 demoCreds).1 =
      ApproveOutcome.productUnavailable ∧
    (((approvePayment demoPaymentStore "payP" "adm1" 5 demoCreds).2).payments
        "payP").map Payment.status = some PaymentStatus.REJECTED ∧
    soldImpliesUnavailable
      ((approvePayment demoPaymentStore "payP" "adm1" 5 demoCreds).2) := by
  have hinv : soldImpliesUnavailable demoPaymentStore := by
    intro pid p hp hv
    unfold demoPaymentStore at hp
    dsimp only at hp
    by_cases h1 : pid = "p1"
    · rw [if_pos h1] at hp
      injection hp with hp
      rw [← hp] at hv
      exact absurd hv (by decide)
    · rw [if_neg h1] at hp
      by_cases h2 : pid = "p2"
      · rw [if_pos h2] at hp
        injection hp with hp
        rw [← hp]
        rfl
      · rw [if_neg h2] at hp
        cases hp
  have happly := c4_sold_at_most_once demoPaymentStore "payP" "u1" "adm1" 5
    demoCreds
  have hmark := (c4_sold_at_most_once demoPaymentStore "p2" "u1" "adm1" 5
    demoCreds).1 demoSoldProduct rfl rfl
  have hrej := happly.2.1 demoPendingPayment demoSoldProduct rfl (Or.inl rfl)
    rfl (Or.inl rfl)
  exact ⟨hmark, hrej.1, hrej.2, happly.2.2.2 hinv⟩

/-! Lemmas bounding the components of the user risk score. -/

theorem ite_nonneg (c : Prop) [Decidable c] (a b : Int) (ha : 0 ≤ a)
    (hb : 0 ≤ b) : 0 ≤ if c then a else b := by
  split <;> assumption

theorem ageScore_nonneg (now : Int) (p : UserProfile) : 0 ≤ ageScore now p := by
  unfold ageScore
  exact ite_nonneg _ _ _ (by decide)
    (ite_nonneg _ _ _ (by decide) (ite_nonneg _ _ _ (by decide) (by decide)))

theorem historyScore_nonneg (now : Int) (hist : List FraudActivity) :
    0 ≤ historyScore now hist := by
  unfold historyScore
  dsimp only
  exact ite_nonneg _ _ _ (by decide)
    (add_nonneg
      (add_nonneg (ite_nonneg _ _ _ (by decide) (by decide))
        (ite_nonneg _ _ _ (by decide) (by decide)))
      (ite_nonneg _ _ _ (by decide) (by decide)))

theorem blockedScore_nonneg (p : UserProfile) : 0 ≤ blockedScore p := by
  unfold blockedScore
  split <;> decide

theorem emailScore_bounds (p : UserProfile) (e : Int)
    (h : emailScore p = Except.ok e) : 0 ≤ e ∧ e ≤ 25 := by
  unfold emailScore at h
  split at h
  · injection h with h
    subst h
    decide
  · split at h
    · injection h with h
      subst h
      decide
    · split at h
      · cases h
      · injection h with h
        subst h
        split <;> decide

theorem calculateRiskScore_bounds (now : Int) (p : UserProfile)
    (hist : List FraudActivity) (score : Int)
    (h : _calculateRiskScore now p hist = Except.ok score) :
    0 ≤ score ∧ score ≤ 100 := by
  unfold _calculateRiskScore at h
  cases hes : emailScore p with
  | error u => rw [hes] at h; cases h
  | ok e =>
    rw [hes] at h
    dsimp only at h
    injection h with h
    subst h
    have he := emailScore_bounds p e hes
    have ha := ageScore_nonneg now p
    have hh := historyScore_nonneg now hist
    have hb := blockedScore_nonneg p
    constructor
    · refine le_min ?_ (by decide)
      omega
    · exact min_le_right _ _

/-- Claim C7, amended: for a fixed environment snapshot (profile, activity
history, evaluation time) with no cached assessment, the user risk
assessment is deterministic and its score lies in the interval from 0 to
100.  The combined score of the transaction-level check is not subject to
this bound: it adds 15 points per per-attempt factor on top of the base
score without any cap, as the counterexample shows. -/
theorem c7_user_score_deterministic_bounded (env : FraudEnv) (now : Int)
    (hc : env.cacheGet = Except.ok none) :
    assessUserRisk env now = assessUserRisk env now ∧
    0 ≤ (assessUserRisk env now).score ∧
    (assessUserRisk env now).score ≤ 100 := by
  refine ⟨rfl, ?_⟩
  unfold assessUserRisk assessUserRiskCore
  rw [hc]
  cases hp : env.getUserProfile with
  | error u =>
    dsimp only [defaultAssessment]
    exact ⟨le_refl 0, by decide⟩
  | ok po =>
    cases po with
    | none =>
      dsimp only
      exact ⟨by decide, by decide⟩
    | some p =>
      dsimp only
      cases hh : env.getUserHistory with
      | error u =>
        dsimp only [defaultAssessment]
        exact ⟨le_refl 0, by decide⟩
      | ok hist0 =>
        dsimp only
        cases hs : _calculateRiskScore now p (hist0.take 100) with
        | error u =>
          dsimp only [defaultAssessment]
          exact ⟨le_refl 0, by decide⟩
        | ok score =>
          dsimp only
          cases hf : _identifyRiskFactors now p (hist0.take 100) with
          | error u =>
            dsimp only [defaultAssessment]
            exact ⟨le_refl 0, by decide⟩
          | ok factors =>
            dsimp only
            exact calculateRiskScore_bounds now p (hist0.take 100) score hs

theorem c7_bound_witness :
    demoFraudEnv.cacheGet = Except.ok none ∧
    0 ≤ (assessUserRisk demoFraudEnv 0).score ∧
    (assessUserRisk demoFraudEnv 0).score ≤ 100 :=
  ⟨rfl, (c7_user_score_deterministic_bounded demoFraudEnv 0 rfl).2⟩

/-- Claim C7, counterexample: an unknown-profile user has base score 50,
below the high tier, and a transaction matching all four per-attempt
factors (amount above three times the historical average, repeated
purchase of the same product inside seven days, deviating payment method
and a previously unseen ip address) yields a combined score of
50 plus 4 times 15, that is 110, which exceeds 100; the combined score
returned by verifyTransaction is therefore not bounded by 100. -/
theorem c7_counterexample :
    (checkTransaction demoFraudEnv 0 demoTransaction).score = 110 ∧
    100 < (checkTransaction demoFraudEnv 0 demoTransaction).score := by
  have h1 : ¬ ("CARD" = "PIX") := by decide
  have h2 : ¬ ("10.0.0.1" = "10.9.9.9") := by decide
  have h3 : ¬ (RiskLevel.medium = RiskLevel.high) := by decide
  have h4 : ¬ ("10.9.9.9" = "10.0.0.1") := by decide
  constructor <;>
  norm_num [checkTransaction, checkTransactionCore, ipFactor, assessUserRisk,
    assessUserRiskCore, demoFraudEnv, demoTransaction, riskThresholdHigh,
    h1, h2, h3, h4, List.filter_cons, List.filter_nil, List.take_succ_cons,
    List.take_nil, List.length_cons, List.length_nil, List.filterMap_cons,
    List.filterMap_nil]

/-- Claim C8: the engine never propagates an exception; whenever the body
of assessUserRisk fails internally the caller receives the conservative
low-risk default with score 0 tagged assessment_error, and whenever the
body of verifyTransaction fails internally the caller receives the
fail-open approval with score 0 tagged verification_error. -/
theorem c8_engine_fails_open (env : FraudEnv) (now : Int)
    (t : TransactionInput) :
    (assessUserRiskCore env now = Except.error () →
      assessUserRisk env now =
        { risk := RiskLevel.low, score := 0, factors := ["assessment_error"],
          timestamp := now }) ∧
    (checkTransactionCore env now t = Except.error () →
      checkTransaction env now t =
        { approved := true, score := 0,
          reasons := ["verification_error"] }) := by
  constructor
  · intro h
    unfold assessUserRisk
    rw [h]
    rfl
  · intro h
    unfold checkTransaction
    rw [h]
    rfl

theorem c8_witness :
    assessUserRiskCore demoFailingCacheEnv 7 = Except.error () ∧
    assessUserRisk demoFailingCacheEnv 7 =
      { risk := RiskLevel.low, score := 0, factors := ["assessment_error"],
        timestamp := 7 } ∧
    checkTransactionCore demoFailingHistoryEnv 7 demoTransaction =
      Except.error () ∧
    checkTransaction demoFailingHistoryEnv 7 demoTransaction =
      { approved := true, score := 0, reasons := ["verification_error"] } :=
  ⟨rfl,
   (c8_engine_fails_open demoFailingCacheEnv 7 demoTransaction).1 rfl,
   rfl,
   (c8_engine_fails_open demoFailingHistoryEnv 7 demoTransaction).2 rfl⟩

end Mercadao
